import Mathlib

/-!
SoFoS `vcf.hpp`: buffer ownership and missing-allele predicates.

A shallow embedding of `src/vcf.hpp`.

* Pointers are addresses (`Nat`), `0` is `nullptr`.
* `std::unique_ptr<T[], buffer_free_t>` is a single ownership slot; its
  operations follow the C++ standard (`release` never calls the deleter,
  `reset` calls it on the previous pointer when that is non-null, the
  destructor calls it on the held pointer when that is non-null).
* The heap operations performed by this header are recorded in a ghost
  log of `Event`s, so that "frees", "releases" and "adopts" are observable.
* The htslib decode functions, `bcf_unpack`, `malloc`, `sizeof(T)`, the
  width of `std::size_t` and the constant `BCF_UN_STR` are not part of the
  header; they are parameters of the definitions that use them.
* A thrown `std::bad_alloc` is `Except.error Failure.bad_alloc`; the state
  that the caller still holds after the throw is returned next to it.
-/

namespace SoFoS

/-! ## Pointers, events, and the owning smart pointer -/

/-- An address; `0` plays the role of `nullptr`. -/
abbrev Ptr := Nat

/-- The null pointer. -/
def nullptr : Ptr := 0

/-- Ghost log entries for the heap operations performed by this header. -/
inductive Event where
  | malloc (bytes : Nat)
  | free (ptr : Ptr)
  | release (ptr : Ptr)
  | reset (ptr : Ptr)
  deriving DecidableEq, Repr

/-- The only failure this header raises: `std::bad_alloc`. -/
inductive Failure where
  | bad_alloc
  deriving DecidableEq, Repr

/-- The deleter `buffer_free_t::operator()`: calls `free(ptr)`. -/
def buffer_free_t (ptr : Ptr) (log : List Event) : List Event :=
  log ++ [Event.free ptr]

/-- The ownership slot `std::unique_ptr<T[], buffer_free_t>`. -/
structure unique_ptr where
  ptr : Ptr
  deriving DecidableEq, Repr

/-- The member `unique_ptr::get()`. -/
def unique_ptr.get (u : unique_ptr) : Ptr := u.ptr

/-- The member `unique_ptr::release()`: gives up ownership, never calls the
deleter, leaves the slot null. Returns the pointer formerly held. -/
def unique_ptr.release (u : unique_ptr) (log : List Event) :
    Ptr × unique_ptr × List Event :=
  (u.ptr, { ptr := nullptr }, log ++ [Event.release u.ptr])

/-- The member `unique_ptr::reset(p)`: stores `p`, then calls the deleter on the
previously held pointer when that one is non-null. -/
def unique_ptr.reset (u : unique_ptr) (p : Ptr) (log : List Event) :
    unique_ptr × List Event :=
  let old := u.ptr
  let log := log ++ [Event.reset p]
  if old ≠ nullptr then ({ ptr := p }, buffer_free_t old log) else ({ ptr := p }, log)

/-- The destructor of `unique_ptr`: calls the deleter when the held pointer is
non-null. -/
def unique_ptr.destroy (u : unique_ptr) (log : List Event) : List Event :=
  if u.ptr ≠ nullptr then buffer_free_t u.ptr log else log

/-! ## `buffer_t` and `make_buffer` -/

/-- The struct `buffer_t<T>`: the element type only matters through `sizeof(T)` in
`make_buffer`, so it is not a parameter of the record. -/
structure buffer_t where
  data : unique_ptr
  capacity : Int
  deriving DecidableEq, Repr

/-- The implicit destructor of `buffer_t<T>`: destroys `data`. -/
def buffer_t.destroy (b : buffer_t) (log : List Event) : List Event :=
  b.data.destroy log

/-- Conversion of an `int` to `std::size_t` of width `size_bits`. -/
def to_size_t (size_bits : Nat) (x : Int) : Nat :=
  (x % (2 : Int) ^ size_bits).toNat

/-- The expression `sizeof(T)*sz` of `make_buffer`, evaluated in `std::size_t`. -/
def make_buffer_bytes (size_bits sizeofT : Nat) (sz : Int) : Nat :=
  (sizeofT * to_size_t size_bits sz) % 2 ^ size_bits

/-- The template `make_buffer<T>(sz)`. `malloc` gives the pointer the allocator
returns for a request of the given number of bytes. -/
def make_buffer (size_bits sizeofT : Nat) (malloc : Nat → Ptr) (sz : Int)
    (log : List Event) : Except Failure buffer_t × List Event :=
  let bytes := make_buffer_bytes size_bits sizeofT sz
  let p := malloc bytes
  let log := log ++ [Event.malloc bytes]
  if p = nullptr then
    (Except.error Failure.bad_alloc, log)
  else
    (Except.ok { data := { ptr := p }, capacity := sz }, log)

/-! ## Records, headers and the external decode functions -/

/-- A `const char*`: absent (`nullptr`), or the bytes found at the address.
A byte past the end of the list reads as `0`. -/
abbrev c_str := Option (List Nat)

/-- The header handle `bcf_hdr_t`; this module only passes it on. -/
structure bcf_hdr_t where
  handle : Nat

/-- The fields of `bcf1_t` that this header reads: `n_allele` and the table
`d.allele`, given as the value stored at each index. -/
structure bcf1_t where
  n_allele : Nat
  allele : Nat → c_str

/-- What an external decode call did: its return code, the pointer it left in
`*dst` and the capacity it left in `*ndst`. -/
structure DecodeOutcome where
  n : Int
  p : Ptr
  ndst : Int
  deriving DecidableEq, Repr

/-- Shape of `bcf_get_info_string`, `bcf_get_info_int32`, `bcf_get_format_float`:
header, record, tag, the pointer and capacity passed in. -/
abbrev tag_decoder := bcf_hdr_t → bcf1_t → c_str → Ptr → Int → DecodeOutcome

/-- Shape of `bcf_get_genotypes`: header, record, pointer and capacity passed in. -/
abbrev gt_decoder := bcf_hdr_t → bcf1_t → Ptr → Int → DecodeOutcome

/-- What the caller of an accessor can see: the buffer it passed by pointer and the
ghost log. -/
structure World where
  buffer : buffer_t
  log : List Event
  deriving DecidableEq, Repr

/-! ## The four accessors -/

/-- The function `get_info_string`. The capacity is passed to htslib by address, so
it is overwritten before the return code is inspected. -/
def get_info_string (bcf_get_info_string : tag_decoder) (header : bcf_hdr_t)
    (record : bcf1_t) (tag : c_str) (w : World) : Except Failure Int × World :=
  let p := w.buffer.data.get
  let r := bcf_get_info_string header record tag p w.buffer.capacity
  let p := r.p
  let buffer : buffer_t := { data := w.buffer.data, capacity := r.ndst }
  let n := r.n
  if n = -4 then
    (Except.error Failure.bad_alloc, { buffer := buffer, log := w.log })
  else if p ≠ buffer.data.get then
    let released := buffer.data.release w.log
    let adopted := released.2.1.reset p released.2.2
    (Except.ok n, { buffer := { data := adopted.1, capacity := buffer.capacity },
                    log := adopted.2 })
  else
    (Except.ok n, { buffer := buffer, log := w.log })

/-- The function `get_info_int32`. -/
def get_info_int32 (bcf_get_info_int32 : tag_decoder) (header : bcf_hdr_t)
    (record : bcf1_t) (tag : c_str) (w : World) : Except Failure Int × World :=
  let p := w.buffer.data.get
  let r := bcf_get_info_int32 header record tag p w.buffer.capacity
  let p := r.p
  let buffer : buffer_t := { data := w.buffer.data, capacity := r.ndst }
  let n := r.n
  if n = -4 then
    (Except.error Failure.bad_alloc, { buffer := buffer, log := w.log })
  else if p ≠ buffer.data.get then
    let released := buffer.data.release w.log
    let adopted := released.2.1.reset p released.2.2
    (Except.ok n, { buffer := { data := adopted.1, capacity := buffer.capacity },
                    log := adopted.2 })
  else
    (Except.ok n, { buffer := buffer, log := w.log })

/-- The function `get_format_float`. -/
def get_format_float (bcf_get_format_float : tag_decoder) (header : bcf_hdr_t)
    (record : bcf1_t) (tag : c_str) (w : World) : Except Failure Int × World :=
  let p := w.buffer.data.get
  let r := bcf_get_format_float header record tag p w.buffer.capacity
  let p := r.p
  let buffer : buffer_t := { data := w.buffer.data, capacity := r.ndst }
  let n := r.n
  if n = -4 then
    (Except.error Failure.bad_alloc, { buffer := buffer, log := w.log })
  else if p ≠ buffer.data.get then
    let released := buffer.data.release w.log
    let adopted := released.2.1.reset p released.2.2
    (Except.ok n, { buffer := { data := adopted.1, capacity := buffer.capacity },
                    log := adopted.2 })
  else
    (Except.ok n, { buffer := buffer, log := w.log })

/-- The function `get_genotypes`. -/
def get_genotypes (bcf_get_genotypes : gt_decoder) (header : bcf_hdr_t)
    (record : bcf1_t) (w : World) : Except Failure Int × World :=
  let p := w.buffer.data.get
  let r := bcf_get_genotypes header record p w.buffer.capacity
  let p := r.p
  let buffer : buffer_t := { data := w.buffer.data, capacity := r.ndst }
  let n := r.n
  if n = -4 then
    (Except.error Failure.bad_alloc, { buffer := buffer, log := w.log })
  else if p ≠ buffer.data.get then
    let released := buffer.data.release w.log
    let adopted := released.2.1.reset p released.2.2
    (Except.ok n, { buffer := { data := adopted.1, capacity := buffer.capacity },
                    log := adopted.2 })
  else
    (Except.ok n, { buffer := buffer, log := w.log })

/-- One accessor call together with the arguments it is made with. -/
inductive Call where
  | info_string (f : tag_decoder) (header : bcf_hdr_t) (record : bcf1_t) (tag : c_str)
  | info_int32 (f : tag_decoder) (header : bcf_hdr_t) (record : bcf1_t) (tag : c_str)
  | format_float (f : tag_decoder) (header : bcf_hdr_t) (record : bcf1_t) (tag : c_str)
  | genotypes (f : gt_decoder) (header : bcf_hdr_t) (record : bcf1_t)

/-- The external decode call that the accessor makes, as a function of the pointer
and capacity it passes in. -/
def Call.decode : Call → Ptr → Int → DecodeOutcome
  | Call.info_string f header record tag => f header record tag
  | Call.info_int32 f header record tag => f header record tag
  | Call.format_float f header record tag => f header record tag
  | Call.genotypes f header record => f header record

/-- Runs the accessor named by the call. -/
def Call.run : Call → World → Except Failure Int × World
  | Call.info_string f header record tag => get_info_string f header record tag
  | Call.info_int32 f header record tag => get_info_int32 f header record tag
  | Call.format_float f header record tag => get_format_float f header record tag
  | Call.genotypes f header record => get_genotypes f header record

/-- The outcome of the external decode call that `c` makes in world `w`. -/
def Call.outcome (c : Call) (w : World) : DecodeOutcome :=
  c.decode w.buffer.data.get w.buffer.capacity

/-- The world after a sequence of accessor calls on the same buffer, a caller that
catches `std::bad_alloc` included. -/
def run_calls : List Call → World → World
  | [], w => w
  | c :: cs, w => run_calls cs (c.run w).2

/-- Whether an accessor result is a normal return. -/
def returned (r : Except Failure Int) : Bool :=
  match r with
  | Except.ok _ => true
  | Except.error _ => false

/-- Whether every call of the sequence returns normally. -/
def all_return : List Call → World → Bool
  | [], _ => true
  | c :: cs, w => returned (c.run w).1 && all_return cs (c.run w).2

/-- The pointers passed to `free`, in order. -/
def frees : List Event → List Ptr
  | [] => []
  | Event.free p :: es => p :: frees es
  | _ :: es => frees es

/-- The pointers adopted by `reset`, in order: one per ownership transfer. -/
def transfers : List Event → List Ptr
  | [] => []
  | Event.reset p :: es => p :: transfers es
  | _ :: es => transfers es

/-- The log of a buffer's whole life after its creation: the accessor calls, then
the destruction of the buffer. -/
def lifecycle_log (calls : List Call) (w : World) : List Event :=
  (run_calls calls w).buffer.destroy (run_calls calls w).log

/-! ## Missing-value predicates -/

/-- The byte `a[i]`. -/
def char_at (a : List Nat) (i : Nat) : Nat := a.getD i 0

/-- The C string found at an address: the bytes before the first nul. -/
def c_string (a : List Nat) : List Nat := a.takeWhile (fun b => b ≠ 0)

/-- The function `is_allele_missing`. -/
def is_allele_missing (a : c_str) : Bool :=
  match a with
  | none => true
  | some a =>
    if char_at a 0 = 0 then
      true
    else if (char_at a 0 = '.'.toNat ∨ char_at a 0 = 'N'.toNat ∨ char_at a 0 = 'n'.toNat)
        ∧ char_at a 1 = 0 then
      true
    else
      false

/-- The bytes of a string literal, without the terminator. -/
def bytes (s : String) : List Nat := s.toList.map Char.toNat

/-- What a call of `is_ref_missing` did: its result, the record afterwards, the
arguments of its `bcf_unpack` calls and the allele indices it read. -/
structure RefMissingRun where
  result : Bool
  record : bcf1_t
  unpack_calls : List Int
  allele_reads : List Nat

/-- The function `is_ref_missing`. `bcf_unpack` gives the record after unpacking. -/
def is_ref_missing (bcf_unpack : bcf1_t → Int → bcf1_t) (BCF_UN_STR : Int)
    (record : bcf1_t) : RefMissingRun :=
  if record.n_allele = 0 then
    { result := true, record := record, unpack_calls := [], allele_reads := [] }
  else
    let record := bcf_unpack record BCF_UN_STR
    { result := is_allele_missing (record.allele 0), record := record,
      unpack_calls := [BCF_UN_STR], allele_reads := [0] }

/-! ## Shared lemmas -/

/-- Every accessor is the same three-way branch on the outcome of its external
decode call. -/
theorem run_eq (c : Call) (w : World) :
    c.run w =
      (if (c.outcome w).n = -4 then
        (Except.error Failure.bad_alloc,
          { buffer := { data := w.buffer.data, capacity := (c.outcome w).ndst },
            log := w.log })
      else if (c.outcome w).p ≠ w.buffer.data.ptr then
        (Except.ok (c.outcome w).n,
          { buffer := { data := { ptr := (c.outcome w).p }, capacity := (c.outcome w).ndst },
            log := w.log ++ [Event.release w.buffer.data.ptr, Event.reset (c.outcome w).p] })
      else
        (Except.ok (c.outcome w).n,
          { buffer := { data := w.buffer.data, capacity := (c.outcome w).ndst },
            log := w.log })) := by
  cases c <;>
    simp [Call.run, Call.outcome, Call.decode, get_info_string, get_info_int32,
      get_format_float, get_genotypes, unique_ptr.get, unique_ptr.release,
      unique_ptr.reset, nullptr]

theorem frees_append (l₁ l₂ : List Event) : frees (l₁ ++ l₂) = frees l₁ ++ frees l₂ := by
  induction l₁ with
  | nil => rfl
  | cons e es ih => cases e <;> simp [frees, ih]

theorem transfers_append (l₁ l₂ : List Event) :
    transfers (l₁ ++ l₂) = transfers l₁ ++ transfers l₂ := by
  induction l₁ with
  | nil => rfl
  | cons e es ih => cases e <;> simp [transfers, ih]

/-- No accessor call, failing or not, adds a free to the log. -/
theorem frees_run (c : Call) (w : World) : frees (c.run w).2.log = frees w.log := by
  rw [run_eq]
  split_ifs <;> simp [frees_append, frees]

theorem frees_run_calls (cs : List Call) (w : World) :
    frees (run_calls cs w).log = frees w.log := by
  induction cs generalizing w with
  | nil => rfl
  | cons c cs ih => simp [run_calls, ih, frees_run]

/-- What a successful `make_buffer` returned: capacity `sz`, a non-null pointer, a
log extended by one `malloc`. -/
theorem make_buffer_ok {size_bits sizeofT : Nat} {malloc : Nat → Ptr} {sz : Int}
    {log₀ log : List Event} {b : buffer_t}
    (h : make_buffer size_bits sizeofT malloc sz log₀ = (Except.ok b, log)) :
    b.capacity = sz ∧ b.data.ptr ≠ nullptr ∧
      log = log₀ ++ [Event.malloc (make_buffer_bytes size_bits sizeofT sz)] := by
  simp only [make_buffer] at h
  split_ifs at h with hp
  · simp at h
  · simp only [Prod.mk.injEq, Except.ok.injEq] at h
    obtain ⟨hb, hl⟩ := h
    subst hb
    exact ⟨rfl, hp, hl.symm⟩

/-! ## Accessors: state after a call and result code -/

/-- C1: for each of the four accessors, every buffer state and every outcome
`(n, p, ndst)` of the external decode call with `n ≠ -4`, after the accessor
returns the stored pointer is `p` and the stored capacity is `ndst`, whether or
not `p` is the pointer held before. -/
theorem accessor_adopts_reported_state (c : Call) (w : World)
    (h : (c.outcome w).n ≠ -4) :
    (c.run w).2.buffer.data.get = (c.outcome w).p ∧
      (c.run w).2.buffer.capacity = (c.outcome w).ndst := by
  rw [run_eq]
  by_cases hp : (c.outcome w).p = w.buffer.data.ptr
  · simp [h, hp, unique_ptr.get]
  · simp [h, hp, unique_ptr.get]

/-- A buffer of capacity 4 at address 1 whose `get_info_int32` decode needs 10
elements and reallocates to address 2 ends with capacity 10 and pointer 2. -/
theorem accessor_adopts_reported_state_witness :
    (get_info_int32 (fun _ _ _ _ _ => { n := 10, p := 2, ndst := 10 }) { handle := 0 }
        { n_allele := 1, allele := fun _ => none } none
        { buffer := { data := { ptr := 1 }, capacity := 4 }, log := [] }).2.buffer.data.get = 2 ∧
    (get_info_int32 (fun _ _ _ _ _ => { n := 10, p := 2, ndst := 10 }) { handle := 0 }
        { n_allele := 1, allele := fun _ => none } none
        { buffer := { data := { ptr := 1 }, capacity := 4 }, log := [] }).2.buffer.capacity = 10 :=
  accessor_adopts_reported_state
    (Call.info_int32 (fun _ _ _ _ _ => { n := 10, p := 2, ndst := 10 }) { handle := 0 }
      { n_allele := 1, allele := fun _ => none } none)
    { buffer := { data := { ptr := 1 }, capacity := 4 }, log := [] } (by decide)

/-- C2: for each of the four accessors and every outcome of the external decode
call, the accessor fails with `bad_alloc` exactly when the external return code
is `-4`, and for every other code `n` it returns `n` itself. -/
theorem accessor_result_code (c : Call) (w : World) :
    ((c.run w).1 = Except.error Failure.bad_alloc ↔ (c.outcome w).n = -4) ∧
      (c.run w).1 =
        (if (c.outcome w).n = -4 then Except.error Failure.bad_alloc
         else Except.ok (c.outcome w).n) := by
  rw [run_eq]
  by_cases h : (c.outcome w).n = -4
  · simp [h]
  · by_cases hp : (c.outcome w).p = w.buffer.data.ptr <;> simp [h, hp]

/-- C4: for each of the four accessors, when the external decode call returns `-4`
the accessor fails with `bad_alloc`, the stored pointer is the one held before the
call whatever pointer the external call reported, and the accessor logs no
release, no reset and no free. -/
theorem accessor_oom_skips_reconciliation (c : Call) (w : World)
    (h : (c.outcome w).n = -4) :
    (c.run w).1 = Except.error Failure.bad_alloc ∧
      (c.run w).2.buffer.data = w.buffer.data ∧
      (c.run w).2.log = w.log := by
  rw [run_eq]
  simp [h]

/-- A `get_info_string` call whose decode returns `-4` and reports the null
pointer in place of address 1 leaves address 1 stored and the log empty. -/
theorem accessor_oom_skips_reconciliation_witness :
    (get_info_string (fun _ _ _ _ _ => { n := -4, p := 0, ndst := 10 }) { handle := 0 }
        { n_allele := 1, allele := fun _ => none } none
        { buffer := { data := { ptr := 1 }, capacity := 4 }, log := [] }).1
      = Except.error Failure.bad_alloc ∧
    (get_info_string (fun _ _ _ _ _ => { n := -4, p := 0, ndst := 10 }) { handle := 0 }
        { n_allele := 1, allele := fun _ => none } none
        { buffer := { data := { ptr := 1 }, capacity := 4 }, log := [] }).2.buffer.data
      = { ptr := 1 } ∧
    (get_info_string (fun _ _ _ _ _ => { n := -4, p := 0, ndst := 10 }) { handle := 0 }
        { n_allele := 1, allele := fun _ => none } none
        { buffer := { data := { ptr := 1 }, capacity := 4 }, log := [] }).2.log = [] :=
  accessor_oom_skips_reconciliation
    (Call.info_string (fun _ _ _ _ _ => { n := -4, p := 0, ndst := 10 }) { handle := 0 }
      { n_allele := 1, allele := fun _ => none } none)
    { buffer := { data := { ptr := 1 }, capacity := 4 }, log := [] } (by decide)

/-! ## Missing-value predicates -/

/-- C6: `is_allele_missing a` is true exactly when `a` is absent, or the C string at
`a` is empty, or it is one of the one-character strings ".", "N", "n". It is
false for "A", "*", every other one-character string and every string of two or
more characters, among them "AC", "Nx", ".A", "NN" and "nn". -/
theorem is_allele_missing_iff (a : c_str) :
    (is_allele_missing a = true ↔
      a = none ∨ ∃ s, a = some s ∧
        (c_string s = [] ∨ c_string s = bytes "." ∨ c_string s = bytes "N"
          ∨ c_string s = bytes "n")) ∧
    is_allele_missing none = true ∧
    is_allele_missing (some (bytes "")) = true ∧
    is_allele_missing (some (bytes ".")) = true ∧
    is_allele_missing (some (bytes "N")) = true ∧
    is_allele_missing (some (bytes "n")) = true ∧
    is_allele_missing (some (bytes "A")) = false ∧
    is_allele_missing (some (bytes "*")) = false ∧
    is_allele_missing (some (bytes "AC")) = false ∧
    is_allele_missing (some (bytes "Nx")) = false ∧
    is_allele_missing (some (bytes ".A")) = false ∧
    is_allele_missing (some (bytes "NN")) = false ∧
    is_allele_missing (some (bytes "nn")) = false ∧
    (∀ s : List Nat, (c_string s).length = 1 → c_string s ≠ bytes "." →
      c_string s ≠ bytes "N" → c_string s ≠ bytes "n" →
      is_allele_missing (some s) = false) ∧
    (∀ s : List Nat, 2 ≤ (c_string s).length → is_allele_missing (some s) = false) := by
  have key : ∀ s : List Nat, is_allele_missing (some s) = true ↔
      (c_string s = [] ∨ c_string s = bytes "." ∨ c_string s = bytes "N"
          ∨ c_string s = bytes "n") := by
    intro s
    have hb1 : bytes "." = [46] := by decide
    have hb2 : bytes "N" = [78] := by decide
    have hb3 : bytes "n" = [110] := by decide
    rw [hb1, hb2, hb3]
    rcases s with _ | ⟨x, _ | ⟨y, t⟩⟩
    · simp [is_allele_missing, char_at, c_string]
    · by_cases hx : x = 0
      · simp [is_allele_missing, char_at, c_string, hx]
      · simp [is_allele_missing, char_at, c_string, hx]
    · by_cases hx : x = 0
      · simp [is_allele_missing, char_at, c_string, hx]
      · by_cases hy : y = 0
        · simp [is_allele_missing, char_at, c_string, hx, hy]
        · simp [is_allele_missing, char_at, c_string, hx, hy]
  refine ⟨?_, by decide, by decide, by decide, by decide, by decide, by decide, by decide,
    by decide, by decide, by decide, by decide, by decide, ?_, ?_⟩
  · cases a with
    | none => simp [is_allele_missing]
    | some s => simpa using key s
  · intro s hlen h1 h2 h3
    have := key s
    cases hres : is_allele_missing (some s) with
    | false => rfl
    | true =>
      rcases this.mp hres with h | h | h | h
      · rw [h] at hlen; simp at hlen
      · exact absurd h h1
      · exact absurd h h2
      · exact absurd h h3
  · intro s hlen
    have := key s
    cases hres : is_allele_missing (some s) with
    | false => rfl
    | true =>
      rcases this.mp hres with h | h | h | h <;> rw [h] at hlen <;> simp [bytes] at hlen

/-- A two-character text that starts with `N` is not missing, and a one-character
text other than ".", "N", "n" is not missing. -/
theorem is_allele_missing_iff_witness :
    is_allele_missing (some [78, 120, 0]) = false ∧
      is_allele_missing (some [65, 0]) = false :=
  ⟨(is_allele_missing_iff none).2.2.2.2.2.2.2.2.2.2.2.2.2.2 [78, 120, 0] (by decide),
   (is_allele_missing_iff none).2.2.2.2.2.2.2.2.2.2.2.2.2.1 [65, 0] (by decide) (by decide)
     (by decide) (by decide)⟩

/-- C7: `is_ref_missing` returns true when `n_allele` is 0, and then makes no
`bcf_unpack` call, reads no allele and leaves the record as it was; otherwise it
calls `bcf_unpack(record, BCF_UN_STR)` once, reads allele 0 of the unpacked record
and returns `is_allele_missing` of it: true when that allele is ".", false when it
is "A". -/
theorem is_ref_missing_spec (bcf_unpack : bcf1_t → Int → bcf1_t) (BCF_UN_STR : Int)
    (record : bcf1_t) :
    (record.n_allele = 0 →
      (is_ref_missing bcf_unpack BCF_UN_STR record).result = true ∧
      (is_ref_missing bcf_unpack BCF_UN_STR record).unpack_calls = [] ∧
      (is_ref_missing bcf_unpack BCF_UN_STR record).allele_reads = [] ∧
      (is_ref_missing bcf_unpack BCF_UN_STR record).record = record) ∧
    (record.n_allele ≠ 0 →
      (is_ref_missing bcf_unpack BCF_UN_STR record).unpack_calls = [BCF_UN_STR] ∧
      (is_ref_missing bcf_unpack BCF_UN_STR record).allele_reads = [0] ∧
      (is_ref_missing bcf_unpack BCF_UN_STR record).record = bcf_unpack record BCF_UN_STR ∧
      (is_ref_missing bcf_unpack BCF_UN_STR record).result
        = is_allele_missing ((bcf_unpack record BCF_UN_STR).allele 0) ∧
      ((bcf_unpack record BCF_UN_STR).allele 0 = some (bytes ".") →
        (is_ref_missing bcf_unpack BCF_UN_STR record).result = true) ∧
      ((bcf_unpack record BCF_UN_STR).allele 0 = some (bytes "A") →
        (is_ref_missing bcf_unpack BCF_UN_STR record).result = false)) := by
  constructor
  · intro h
    simp [is_ref_missing, h]
  · intro h
    refine ⟨by simp [is_ref_missing, h], by simp [is_ref_missing, h],
      by simp [is_ref_missing, h], by simp [is_ref_missing, h], ?_, ?_⟩
    · intro ha
      simp only [is_ref_missing, h, if_false, ha]
      decide
    · intro ha
      simp only [is_ref_missing, h, if_false, ha]
      decide

/-- A record with no allele is reported missing without any unpack call; a packed
record with `n_allele = 2` whose unpacking yields the reference allele "A" is
reported present. -/
theorem is_ref_missing_spec_witness :
    (is_ref_missing (fun r _ => { n_allele := r.n_allele, allele := fun _ => some (bytes "A") }) 1
        { n_allele := 0, allele := fun _ => none }).result = true ∧
    (is_ref_missing (fun r _ => { n_allele := r.n_allele, allele := fun _ => some (bytes "A") }) 1
        { n_allele := 0, allele := fun _ => none }).unpack_calls = [] ∧
    (is_ref_missing (fun r _ => { n_allele := r.n_allele, allele := fun _ => some (bytes "A") }) 1
        { n_allele := 2, allele := fun _ => none }).result = false :=
  ⟨((is_ref_missing_spec (fun r _ => { n_allele := r.n_allele, allele := fun _ => some (bytes "A") }) 1
      { n_allele := 0, allele := fun _ => none }).1 rfl).1,
   ((is_ref_missing_spec (fun r _ => { n_allele := r.n_allele, allele := fun _ => some (bytes "A") }) 1
      { n_allele := 0, allele := fun _ => none }).1 rfl).2.1,
   ((is_ref_missing_spec (fun r _ => { n_allele := r.n_allele, allele := fun _ => some (bytes "A") }) 1
      { n_allele := 2, allele := fun _ => none }).2 (by decide)).2.2.2.2.2 rfl⟩

/-! ## `make_buffer` -/

theorem make_buffer_bytes_exact (size_bits sizeofT : Nat) (n : Int) (h0 : 0 ≤ n)
    (hfit : n.toNat * sizeofT < 2 ^ size_bits) :
    make_buffer_bytes size_bits sizeofT n = n.toNat * sizeofT := by
  unfold make_buffer_bytes to_size_t
  rcases Nat.eq_zero_or_pos sizeofT with hz | hpos
  · simp [hz]
  · have hn : n.toNat < 2 ^ size_bits :=
      lt_of_le_of_lt (Nat.le_mul_of_pos_right _ hpos) hfit
    have hcast : ((2 : Int) ^ size_bits) = ((2 ^ size_bits : Nat) : Int) := by push_cast; rfl
    have hmod : n % (2 : Int) ^ size_bits = n := by
      apply Int.emod_eq_of_lt h0
      rw [hcast]
      have : (n.toNat : Int) = n := Int.toNat_of_nonneg h0
      omega
    rw [hmod, Nat.mul_comm, Nat.mod_eq_of_lt hfit]

/-- C8, as the code has it: for every `sizeof(T)` and every requested size `n ≥ 0`
whose byte count `n * sizeof(T)` fits `std::size_t`, `make_buffer<T>(n)` asks the
allocator once, for `n * sizeof(T)` bytes; when the allocator returns null it fails
with `bad_alloc` and returns no buffer, and otherwise it returns a buffer whose data
is the non-null pointer the allocator returned and whose capacity is `n`. -/
theorem make_buffer_spec (size_bits sizeofT : Nat) (malloc : Nat → Ptr) (n : Int)
    (log : List Event) (h0 : 0 ≤ n) (hfit : n.toNat * sizeofT < 2 ^ size_bits) :
    (make_buffer size_bits sizeofT malloc n log).2
        = log ++ [Event.malloc (n.toNat * sizeofT)] ∧
    (malloc (n.toNat * sizeofT) = nullptr →
      (make_buffer size_bits sizeofT malloc n log).1 = Except.error Failure.bad_alloc) ∧
    (malloc (n.toNat * sizeofT) ≠ nullptr →
      (make_buffer size_bits sizeofT malloc n log).1
        = Except.ok { data := { ptr := malloc (n.toNat * sizeofT) }, capacity := n }) := by
  have hb := make_buffer_bytes_exact size_bits sizeofT n h0 hfit
  refine ⟨?_, ?_, ?_⟩
  · unfold make_buffer
    simp only [hb]
    split_ifs <;> rfl
  · intro hnull
    unfold make_buffer
    simp only [hb, hnull, if_true]
  · intro hnn
    unfold make_buffer
    simp only [hb, hnn, if_false]

/-- With a 64-bit `size_t`, `make_buffer<int32_t>(4)` asks for 16 bytes and, when the
allocator answers with address 1, returns a buffer at address 1 of capacity 4. -/
theorem make_buffer_spec_witness :
    (make_buffer 64 4 (fun _ => 1) 4 []).2 = [Event.malloc 16] ∧
    (make_buffer 64 4 (fun _ => 1) 4 []).1
        = Except.ok { data := { ptr := 1 }, capacity := 4 } :=
  ⟨(make_buffer_spec 64 4 (fun _ => 1) 4 [] (by decide) (by decide)).1,
   (make_buffer_spec 64 4 (fun _ => 1) 4 [] (by decide) (by decide)).2.2 (by decide)⟩

/-- C8 as stated fails: with a 64-bit `size_t`, an element type of `2^34` bytes
and `n = 2^30`, the product `sizeof(T)*sz` wraps, so the allocator is asked for 0
bytes and not for `n * sizeof(T) = 2^64`; the buffer returned still has capacity
`2^30`. -/
theorem make_buffer_bytes_wraps :
    (make_buffer 64 (2 ^ 34) (fun _ => 1) (2 ^ 30) []).2 = [Event.malloc 0] ∧
    (make_buffer 64 (2 ^ 34) (fun _ => 1) (2 ^ 30) []).1
        = Except.ok { data := { ptr := 1 }, capacity := 2 ^ 30 } ∧
    ((2 : Int) ^ 30).toNat * 2 ^ 34 = 2 ^ 64 ∧
    ¬ (∀ (size_bits sizeofT : Nat) (malloc : Nat → Ptr) (n : Int) (log : List Event),
        0 ≤ n →
        (make_buffer size_bits sizeofT malloc n log).2
          = log ++ [Event.malloc (n.toNat * sizeofT)]) := by
  have h1 : make_buffer_bytes 64 (2 ^ 34) (2 ^ 30) = 0 := by
    decide
  have h2 : (make_buffer 64 (2 ^ 34) (fun _ => 1) (2 ^ 30) []).2 = [Event.malloc 0] := by
    unfold make_buffer
    rw [h1]
    rfl
  refine ⟨h2, ?_, by decide, ?_⟩
  · unfold make_buffer
    rw [h1]
    rfl
  · intro hall
    have h3 := hall 64 (2 ^ 34) (fun _ => 1) (2 ^ 30) [] (by norm_num)
    rw [h2] at h3
    simp at h3

/-! ## Round trip, absent field, lifecycle -/

/-- C9: for every capacity `C`, every buffer `b` returned by `make_buffer(C)` and
every accessor call on `b` whose external decode reports the same pointer and the
same capacity with a return code other than `-4`, the buffer after the call has the
same pointer and the same capacity `C`, the code is returned, and the accessor logs
nothing, so it frees nothing. -/
theorem accessor_round_trip (size_bits sizeofT : Nat) (malloc : Nat → Ptr) (C : Int)
    (log₀ log : List Event) (b : buffer_t) (c : Call)
    (hmake : make_buffer size_bits sizeofT malloc C log₀ = (Except.ok b, log))
    (hn : (c.outcome { buffer := b, log := log }).n ≠ -4)
    (hp : (c.outcome { buffer := b, log := log }).p = b.data.get)
    (hc : (c.outcome { buffer := b, log := log }).ndst = b.capacity) :
    (c.run { buffer := b, log := log }).2.buffer.data.get = b.data.get ∧
    (c.run { buffer := b, log := log }).2.buffer.capacity = C ∧
    (c.run { buffer := b, log := log }).2.buffer = b ∧
    (c.run { buffer := b, log := log }).2.log = log ∧
    frees (c.run { buffer := b, log := log }).2.log = frees log ∧
    (c.run { buffer := b, log := log }).1
      = Except.ok (c.outcome { buffer := b, log := log }).n := by
  have hcap : b.capacity = C := (make_buffer_ok hmake).1
  have hp2 : (c.outcome { buffer := b, log := log }).p = b.data.ptr := hp
  rw [run_eq]
  simp [hn, hp2, hc, unique_ptr.get, ← hcap]

/-- A buffer of capacity 8 made at address 1, then a `get_format_float` decode of 3
elements that fits: pointer 1 and capacity 8 stay, nothing is logged. -/
theorem accessor_round_trip_witness :
    (get_format_float (fun _ _ _ p cap => { n := 3, p := p, ndst := cap }) { handle := 0 }
        { n_allele := 1, allele := fun _ => none } none
        { buffer := { data := { ptr := 1 }, capacity := 8 }, log := [Event.malloc 32] }).2.buffer
      = { data := { ptr := 1 }, capacity := 8 } ∧
    (get_format_float (fun _ _ _ p cap => { n := 3, p := p, ndst := cap }) { handle := 0 }
        { n_allele := 1, allele := fun _ => none } none
        { buffer := { data := { ptr := 1 }, capacity := 8 }, log := [Event.malloc 32] }).2.log
      = [Event.malloc 32] :=
  ⟨(accessor_round_trip 64 4 (fun _ => 1) 8 [] [Event.malloc 32]
      { data := { ptr := 1 }, capacity := 8 }
      (Call.format_float (fun _ _ _ p cap => { n := 3, p := p, ndst := cap }) { handle := 0 }
        { n_allele := 1, allele := fun _ => none } none)
      rfl (by decide) rfl rfl).2.2.1,
   (accessor_round_trip 64 4 (fun _ => 1) 8 [] [Event.malloc 32]
      { data := { ptr := 1 }, capacity := 8 }
      (Call.format_float (fun _ _ _ p cap => { n := 3, p := p, ndst := cap }) { handle := 0 }
        { n_allele := 1, allele := fun _ => none } none)
      rfl (by decide) rfl rfl).2.2.2.1⟩

/-- C10: for each of the four accessors and every buffer state, when the external
decode call returns `-3` (field not present in this record: the decode returns
before it touches the pointer and the capacity it was passed), the accessor returns
`-3` to the caller and the stored pointer and the stored capacity are equal to their
values before the call; the accessor logs nothing. -/
theorem accessor_field_absent (c : Call) (w : World)
    (h : (c.outcome w).n = -3)
    (hp : (c.outcome w).p = w.buffer.data.get)
    (hc : (c.outcome w).ndst = w.buffer.capacity) :
    (c.run w).1 = Except.ok (-3) ∧
    (c.run w).2.buffer.data.get = w.buffer.data.get ∧
    (c.run w).2.buffer.capacity = w.buffer.capacity ∧
    (c.run w).2 = w := by
  have hp2 : (c.outcome w).p = w.buffer.data.ptr := hp
  rw [run_eq]
  simp [h, hp2, hc]

/-- A `get_genotypes` call whose decode finds no field, returns `-3` and leaves
pointer and capacity alone, returns `-3` and leaves the world as it was. -/
theorem accessor_field_absent_witness :
    (get_genotypes (fun _ _ p cap => { n := -3, p := p, ndst := cap }) { handle := 0 }
        { n_allele := 1, allele := fun _ => none }
        { buffer := { data := { ptr := 1 }, capacity := 4 }, log := [] }).1 = Except.ok (-3) ∧
    (get_genotypes (fun _ _ p cap => { n := -3, p := p, ndst := cap }) { handle := 0 }
        { n_allele := 1, allele := fun _ => none }
        { buffer := { data := { ptr := 1 }, capacity := 4 }, log := [] }).2
      = { buffer := { data := { ptr := 1 }, capacity := 4 }, log := [] } :=
  ⟨(accessor_field_absent
      (Call.genotypes (fun _ _ p cap => { n := -3, p := p, ndst := cap }) { handle := 0 }
        { n_allele := 1, allele := fun _ => none })
      { buffer := { data := { ptr := 1 }, capacity := 4 }, log := [] }
      (by decide) rfl rfl).1,
   (accessor_field_absent
      (Call.genotypes (fun _ _ p cap => { n := -3, p := p, ndst := cap }) { handle := 0 }
        { n_allele := 1, allele := fun _ => none })
      { buffer := { data := { ptr := 1 }, capacity := 4 }, log := [] }
      (by decide) rfl rfl).2.2.2⟩

theorem returned_of_all_return (pre : List Call) (c : Call) (post : List Call)
    (w : World) (h : all_return (pre ++ c :: post) w = true) :
    returned (c.run (run_calls pre w)).1 = true := by
  induction pre generalizing w with
  | nil =>
    simp only [List.nil_append, all_return, Bool.and_eq_true] at h
    exact h.1
  | cons d ds ih =>
    simp only [List.cons_append, all_return, Bool.and_eq_true] at h
    exact ih _ h.2

theorem outcome_ne_of_returned (c : Call) (w : World)
    (h : returned (c.run w).1 = true) : (c.outcome w).n ≠ -4 := by
  intro hn
  rw [run_eq] at h
  simp [hn, returned] at h

/-- C3: for every buffer made by `make_buffer` and every finite sequence of
non-failing accessor calls on it followed by the destruction of the buffer: no
accessor call adds a free to the log (a call that reallocates logs one release of
the superseded pointer and one reset to the new pointer, nothing else); the
destruction frees the pointer stored last, and only it (nothing when that pointer
is null, which owns no block); so no pointer is freed twice. -/
theorem buffer_lifecycle_frees (size_bits sizeofT : Nat) (malloc : Nat → Ptr) (sz : Int)
    (b : buffer_t) (log : List Event) (calls : List Call)
    (hmake : make_buffer size_bits sizeofT malloc sz [] = (Except.ok b, log))
    (hret : all_return calls { buffer := b, log := log } = true) :
    (∀ pre c post, calls = pre ++ c :: post →
      frees (run_calls pre { buffer := b, log := log }).log = [] ∧
      frees (c.run (run_calls pre { buffer := b, log := log })).2.log = [] ∧
      (c.run (run_calls pre { buffer := b, log := log })).2.log
        = (run_calls pre { buffer := b, log := log }).log ++
          (if (c.outcome (run_calls pre { buffer := b, log := log })).p
              ≠ (run_calls pre { buffer := b, log := log }).buffer.data.get then
            [Event.release (run_calls pre { buffer := b, log := log }).buffer.data.get,
             Event.reset (c.outcome (run_calls pre { buffer := b, log := log })).p]
           else [])) ∧
    frees (run_calls calls { buffer := b, log := log }).log = [] ∧
    frees (lifecycle_log calls { buffer := b, log := log })
      = (if (run_calls calls { buffer := b, log := log }).buffer.data.get = nullptr then []
         else [(run_calls calls { buffer := b, log := log }).buffer.data.get]) ∧
    (frees (lifecycle_log calls { buffer := b, log := log })).Nodup := by
  have hlog : frees log = [] := by
    rw [(make_buffer_ok hmake).2.2]
    simp [frees]
  have hpre : ∀ cs : List Call, frees (run_calls cs { buffer := b, log := log }).log = [] := by
    intro cs
    rw [frees_run_calls]
    exact hlog
  have hlife : frees (lifecycle_log calls { buffer := b, log := log })
      = (if (run_calls calls { buffer := b, log := log }).buffer.data.get = nullptr then []
         else [(run_calls calls { buffer := b, log := log }).buffer.data.get]) := by
    unfold lifecycle_log buffer_t.destroy unique_ptr.destroy buffer_free_t unique_ptr.get
    by_cases hnull : (run_calls calls { buffer := b, log := log }).buffer.data.ptr = nullptr
    · simp [hnull, hpre]
    · simp [hnull, hpre, frees_append, frees]
  refine ⟨?_, hpre calls, hlife, ?_⟩
  · intro pre c post hsplit
    refine ⟨hpre pre, ?_, ?_⟩
    · rw [frees_run]
      exact hpre pre
    · have hr := returned_of_all_return pre c post { buffer := b, log := log }
        (by rw [← hsplit]; exact hret)
      have hn := outcome_ne_of_returned c _ hr
      rw [run_eq]
      by_cases hp : (c.outcome (run_calls pre { buffer := b, log := log })).p
          = (run_calls pre { buffer := b, log := log }).buffer.data.ptr
      · simp [hn, hp, unique_ptr.get]
      · simp [hn, hp, unique_ptr.get]
  · rw [hlife]
    split_ifs <;> simp

/-- A buffer of four `int32_t` made at address 1, a `get_info_int32` call that
reallocates it to address 2, a `get_genotypes` call that fits, then destruction: the
only free of the whole life is the free of address 2. -/
theorem buffer_lifecycle_frees_witness :
    lifecycle_log
        [Call.info_int32 (fun _ _ _ _ _ => { n := 10, p := 2, ndst := 10 }) { handle := 0 }
           { n_allele := 1, allele := fun _ => none } none,
         Call.genotypes (fun _ _ p cap => { n := 2, p := p, ndst := cap }) { handle := 0 }
           { n_allele := 1, allele := fun _ => none }]
        { buffer := { data := { ptr := 1 }, capacity := 4 }, log := [Event.malloc 16] }
      = [Event.malloc 16, Event.release 1, Event.reset 2, Event.free 2] ∧
    frees (lifecycle_log
        [Call.info_int32 (fun _ _ _ _ _ => { n := 10, p := 2, ndst := 10 }) { handle := 0 }
           { n_allele := 1, allele := fun _ => none } none,
         Call.genotypes (fun _ _ p cap => { n := 2, p := p, ndst := cap }) { handle := 0 }
           { n_allele := 1, allele := fun _ => none }]
        { buffer := { data := { ptr := 1 }, capacity := 4 }, log := [Event.malloc 16] })
      = [2] :=
  ⟨rfl,
   (buffer_lifecycle_frees 64 4 (fun _ => 1) 4 { data := { ptr := 1 }, capacity := 4 }
      [Event.malloc 16]
      [Call.info_int32 (fun _ _ _ _ _ => { n := 10, p := 2, ndst := 10 }) { handle := 0 }
         { n_allele := 1, allele := fun _ => none } none,
       Call.genotypes (fun _ _ p cap => { n := 2, p := p, ndst := cap }) { handle := 0 }
         { n_allele := 1, allele := fun _ => none }]
      rfl rfl).2.2.1⟩

/-- C5, as the code has it: for every buffer and every finite sequence of accessor
calls on it, each further call performs at most one ownership transfer (exactly one
when it returns normally with a reported pointer other than the stored one, none
otherwise); after the call the stored capacity is the one the external decode
reported; the stored pointer is the reported one after a normal return, and the
one held before the call after a `bad_alloc` failure. -/
theorem accessor_pointer_capacity_pairing (w₀ : World) (pre : List Call) (c : Call) :
    transfers (c.run (run_calls pre w₀)).2.log
      = transfers (run_calls pre w₀).log ++
        (if returned (c.run (run_calls pre w₀)).1 = true ∧
            (c.outcome (run_calls pre w₀)).p ≠ (run_calls pre w₀).buffer.data.get
         then [(c.outcome (run_calls pre w₀)).p] else []) ∧
    (transfers (c.run (run_calls pre w₀)).2.log).length
      ≤ (transfers (run_calls pre w₀).log).length + 1 ∧
    (c.run (run_calls pre w₀)).2.buffer.capacity = (c.outcome (run_calls pre w₀)).ndst ∧
    (returned (c.run (run_calls pre w₀)).1 = true →
      (c.run (run_calls pre w₀)).2.buffer.data.get = (c.outcome (run_calls pre w₀)).p) ∧
    (returned (c.run (run_calls pre w₀)).1 = false →
      (c.run (run_calls pre w₀)).2.buffer.data.get = (run_calls pre w₀).buffer.data.get) := by
  generalize run_calls pre w₀ = w
  rw [run_eq]
  by_cases hn : (c.outcome w).n = -4
  · simp [hn, returned, unique_ptr.get]
  · by_cases hp : (c.outcome w).p = w.buffer.data.ptr
    · simp [hn, hp, returned, unique_ptr.get]
    · simp [hn, hp, returned, unique_ptr.get, transfers_append, transfers]

/-- After a reallocating `get_info_int32` call, a `get_genotypes` call whose decode
returns `-4` and reports the null pointer with capacity 20 leaves pointer 2 stored;
a normal return stores the reported pointer. -/
theorem accessor_pointer_capacity_pairing_witness :
    (get_genotypes (fun _ _ _ _ => { n := -4, p := 0, ndst := 20 }) { handle := 0 }
        { n_allele := 1, allele := fun _ => none }
        (run_calls
          [Call.info_int32 (fun _ _ _ _ _ => { n := 10, p := 2, ndst := 10 }) { handle := 0 }
            { n_allele := 1, allele := fun _ => none } none]
          { buffer := { data := { ptr := 1 }, capacity := 4 }, log := [] })).2.buffer.data.get
      = 2 ∧
    (get_info_int32 (fun _ _ _ _ _ => { n := 10, p := 2, ndst := 10 }) { handle := 0 }
        { n_allele := 1, allele := fun _ => none } none
        { buffer := { data := { ptr := 1 }, capacity := 4 }, log := [] }).2.buffer.data.get
      = 2 :=
  ⟨(accessor_pointer_capacity_pairing
      { buffer := { data := { ptr := 1 }, capacity := 4 }, log := [] }
      [Call.info_int32 (fun _ _ _ _ _ => { n := 10, p := 2, ndst := 10 }) { handle := 0 }
        { n_allele := 1, allele := fun _ => none } none]
      (Call.genotypes (fun _ _ _ _ => { n := -4, p := 0, ndst := 20 }) { handle := 0 }
        { n_allele := 1, allele := fun _ => none })).2.2.2.2 rfl,
   (accessor_pointer_capacity_pairing
      { buffer := { data := { ptr := 1 }, capacity := 4 }, log := [] } []
      (Call.info_int32 (fun _ _ _ _ _ => { n := 10, p := 2, ndst := 10 }) { handle := 0 }
        { n_allele := 1, allele := fun _ => none } none)).2.2.2.1 rfl⟩

/-- C5 as stated fails after a `bad_alloc` failure: the capacity is handed to the
external call by address, so it already holds the reported value when the accessor
throws, while the pointer is still the old one. For a buffer at address 1 of
capacity 4 and a decode that returns `-4` reporting the null pointer and capacity
10, `get_info_int32` leaves pointer 1 with capacity 10. -/
theorem accessor_oom_splits_pointer_and_capacity :
    (get_info_int32 (fun _ _ _ _ _ => { n := -4, p := 0, ndst := 10 }) { handle := 0 }
        { n_allele := 1, allele := fun _ => none } none
        { buffer := { data := { ptr := 1 }, capacity := 4 }, log := [] })
      = (Except.error Failure.bad_alloc,
          { buffer := { data := { ptr := 1 }, capacity := 10 }, log := [] }) ∧
    ¬ (∀ (w₀ : World) (pre : List Call) (c : Call),
        ((c.run (run_calls pre w₀)).2.buffer.data.get = (c.outcome (run_calls pre w₀)).p ∧
          (c.run (run_calls pre w₀)).2.buffer.capacity
            = (c.outcome (run_calls pre w₀)).ndst) ∨
        ((c.run (run_calls pre w₀)).2.buffer.data.get = (run_calls pre w₀).buffer.data.get ∧
          (c.run (run_calls pre w₀)).2.buffer.capacity
            = (run_calls pre w₀).buffer.capacity)) := by
  refine ⟨rfl, ?_⟩
  intro hall
  rcases hall { buffer := { data := { ptr := 1 }, capacity := 4 }, log := [] } []
    (Call.info_int32 (fun _ _ _ _ _ => { n := -4, p := 0, ndst := 10 }) { handle := 0 }
      { n_allele := 1, allele := fun _ => none } none) with h | h
  · exact absurd h.1 (by decide)
  · exact absurd h.2 (by decide)

end SoFoS
